import Mathlib

/-!
Shallow embedding of the `kube.py` Ansible module (class `KubeManager` and
the module-level `main`), which manages Kubernetes resources by building
`kubectl` command vectors, optionally probing existence with `get`, running
the external binary, and classifying its output into a
`{changed, meta, msg}` result record.

External collaborators are modelled as an `Env` record of functions:
`module.run_command` (process invocation), `os.path.isdir` (filesystem
probe), `re.findall` (the Python regular-expression library; `re` resolves
through the star import of the host framework), and `module.get_bin_path`.
`module.fail_json`, which terminates the run, is modelled as returning
`Except.error`.  Each operation also returns the list of argument vectors
handed to `run_command` (the invocation trace), so that statements about
"no external invocation is issued" are expressible.

String helpers mirror Python 2 byte-string semantics: `str.splitlines`
splits on "\n", "\r\n" and "\r"; `str.split()` splits on runs of ASCII
whitespace discarding empties; `x in s` is the contiguous-substring test;
`str.strip()` trims ASCII whitespace from both ends.
-/

/-- Python byte-string whitespace: space, tab, newline, carriage return,
vertical tab, form feed. -/
def pySpaceB (c : Char) : Bool :=
  c = ' ' || c = '\t' || c = '\n' || c = '\r' || c = '\x0b' || c = '\x0c'

/-- Worker for `pySplitlines`: accumulate the current line (reversed). -/
def splitlinesAux : List Char → List Char → List String
  | [], acc => if acc.isEmpty then [] else [⟨acc.reverse⟩]
  | '\r' :: '\n' :: rest, acc => ⟨acc.reverse⟩ :: splitlinesAux rest []
  | '\r' :: rest, acc => ⟨acc.reverse⟩ :: splitlinesAux rest []
  | '\n' :: rest, acc => ⟨acc.reverse⟩ :: splitlinesAux rest []
  | c :: rest, acc => splitlinesAux rest (c :: acc)

/-- Python `s.splitlines()` on byte strings. -/
def pySplitlines (s : String) : List String :=
  splitlinesAux s.data []

/-- Worker for `pySplit`. -/
def splitAux : List Char → List Char → List String
  | [], acc => if acc.isEmpty then [] else [⟨acc.reverse⟩]
  | c :: rest, acc =>
    if pySpaceB c then
      if acc.isEmpty then splitAux rest [] else ⟨acc.reverse⟩ :: splitAux rest []
    else
      splitAux rest (c :: acc)

/-- Python `s.split()` with no argument: runs of whitespace, no empties. -/
def pySplit (s : String) : List String :=
  splitAux s.data []

/-- Worker for `pyInStr`: does `n` occur as a contiguous sublist of the
second argument? -/
def inStrAux (n : List Char) : List Char → Bool
  | [] => n.isEmpty
  | c :: rest => n.isPrefixOf (c :: rest) || inStrAux n rest

/-- Python `needle in hay` for strings: contiguous substring test. -/
def pyInStr (needle hay : String) : Bool :=
  inStrAux needle.data hay.data

/-- Python `s.strip()`: trim whitespace from both ends. -/
def pyStrip (s : String) : String :=
  ⟨((s.data.dropWhile pySpaceB).reverse.dropWhile pySpaceB).reverse⟩

/-- Python `' '.join(err.split()[-2:])`: the last two whitespace-separated
tokens of `err`, joined by a single space (kube.py line 177). -/
def lastTwoJoin (err : String) : String :=
  let toks := pySplit err
  String.intercalate " " (toks.drop (toks.length - 2))

/-- `self.safe_commands` (kube.py line 157). -/
def safe_commands : List String :=
  ["api-versions", "cluster-info", "describe", "explain", "get", "logs", "version"]

/-- `self.changed_words` (kube.py line 158). -/
def changed_words : List String :=
  ["created", "deleted", "labeled", "modified"]

/-- The changed-word test of kube.py line 184:
`filter(lambda item: any(x in item for x in out.split()), self.changed_words)`
is truthy (Python 2 `filter` returns a list; a list is truthy iff
non-empty).  Note the direction of the membership test: a stdout token `x`
must be a substring of a vocabulary word `item`. -/
def changedTest (out : String) : Bool :=
  !(changed_words.filter (fun item => (pySplit out).any (fun x => pyInStr x item))).isEmpty

/-- Truthiness of an optional-string module parameter: `None` and the empty
string are falsy. -/
def truthyS : Option String → Bool
  | none => false
  | some s => s != ""

/-- The result record `self.results` (kube.py line 160). -/
structure Results where
  changed : Bool
  meta : List String
  msg : String
deriving DecidableEq, Repr

/-- The initial result record of line 160: changed false, meta empty,
message empty. -/
def initResults : Results :=
  { changed := false, meta := [], msg := "" }

/-- Terminal failures (`module.fail_json`) and the runtime `NameError` of
`main` line 289, as a structured error type. -/
inductive KubeError where
  /-- option-combination failures (`filename or resource required`,
  `use state=absent instead of command=delete`, `Unrecognized state`). -/
  | configError : String → KubeError
  /-- kube.py line 176: non-zero exit surfaced with the full argument
  vector, exit code, stdout and stderr. -/
  | executionError : (args : List String) → (rc : Int) → (out : String) → (err : String) → KubeError
  /-- a Python `NameError` on an unbound name at runtime. -/
  | nameError : String → KubeError
deriving DecidableEq, Repr

/-- The user-supplied module parameters (`module.params`). -/
structure KubeParams where
  kubectl : Option String
  command : String
  resource : List String
  name : Option String
  keyvars : List String
  filter : Option String
  filename : List String
  /-- the `namespace` parameter (a Lean keyword, hence the spelling). -/
  nspace : Option String
  label : Option String
  server : Option String
  kubeconfig : Option String
  ignore : Bool
  overwrite : Bool
  force : Bool
  all : Bool
  log_level : Int
  state : String

/-- The external collaborators of the module. -/
structure Env where
  /-- `module.get_bin_path` for kubectl, required (assumed to succeed). -/
  binPath : String
  /-- `os.path.isdir`. -/
  isdirP : String → Bool
  /-- `module.run_command args = (rc, out, err)`. -/
  run : List String → Int × String × String
  /-- `re.findall pattern string` from the Python standard library. -/
  findall : String → String → List String

/-- The state of a `KubeManager` instance after `__init__`
(kube.py lines 136-169). -/
structure KubeManager where
  kubectl : String
  command : String
  resource : List String
  name : Option String
  keyvars : List String
  filter : Option String
  filename : List String
  nspace : Option String
  label : Option String
  server : Option String
  kubeconfig : Option String
  ignore : Bool
  overwrite : Bool
  force : Bool
  all : Bool
  log_level : Int
  isdir : Bool

/-- `KubeManager.__init__` (kube.py lines 136-169): strip list parameters,
resolve the binary path, and set `self.isdir` from the first file path. -/
def KubeManager.init (env : Env) (p : KubeParams) : KubeManager :=
  let filename := p.filename.map pyStrip
  { kubectl := p.kubectl.getD env.binPath
  , command := p.command
  , resource := p.resource.map pyStrip
  , name := p.name
  , keyvars := p.keyvars.map pyStrip
  , filter := p.filter
  , filename := filename
  , nspace := p.nspace
  , label := p.label
  , server := p.server
  , kubeconfig := p.kubeconfig
  , ignore := p.ignore
  , overwrite := p.overwrite
  , force := p.force
  , all := p.all
  , log_level := p.log_level
  , isdir := !filename.isEmpty && env.isdirP (filename.headD "") }

/-- `self.base_cmd = [self.kubectl]` (kube.py line 141). -/
def KubeManager.base_cmd (m : KubeManager) : List String :=
  [m.kubectl]

/-- kube.py lines 201-205: the resource tokens emitted by `_flags` —
only the first resource when probing existence, all of them otherwise. -/
def resourceTokens (m : KubeManager) (ex : Bool) : List String :=
  if m.resource = [] then []
  else if ex = true then [m.resource.headD ""] else m.resource

/-- One `--flag=value` token when the optional parameter is truthy. -/
def optFlag (o : Option String) (pre : String) : List String :=
  if truthyS o = true then [pre ++ o.getD ""] else []

/-- kube.py lines 206-230: the tokens `_flags` appends after the resource
tokens, in source order. -/
def flagTokens (m : KubeManager) (ex : Bool) : List String :=
  (if truthyS m.name = true then [m.name.getD ""] else [])
  ++ (if m.keyvars ≠ [] ∧ ex = false then m.keyvars else [])
  ++ (if m.filename ≠ [] then ["--filename=" ++ String.intercalate "," m.filename] else [])
  ++ optFlag m.kubeconfig "--kubeconfig="
  ++ optFlag m.nspace "--namespace="
  ++ optFlag m.label "--selector="
  ++ optFlag m.server "--server="
  ++ (if m.ignore = true then ["--ignore-not-found"] else [])
  ++ (if m.overwrite = true then ["--overwrite"] else [])
  ++ (if m.force = true then ["--force"] else [])
  ++ (if m.all = true then ["--all"] else [])
  ++ (if m.log_level ≠ 0 then ["--v=" ++ toString m.log_level] else [])

/-- `KubeManager._flags` (kube.py lines 198-233): fail unless a filename or
resource is given, append resource tokens then flag tokens to the verb, and
append `--no-headers` when the leading token is `get`. -/
def KubeManager._flags (m : KubeManager) (cmd0 : List String) (ex : Bool) :
    Except KubeError (List String) :=
  if m.filename = [] ∧ m.resource = [] then
    .error (.configError "filename or resource required")
  else
    let cmd := cmd0 ++ resourceTokens m ex ++ flagTokens m ex
    .ok (cmd ++ (if cmd.head? = some "get" then ["--no-headers"] else []))

/-- The `else` branch of `_execute` (kube.py lines 179-186): with a filter,
`meta` becomes the `re.findall` matches; otherwise `meta` is the line split
of stdout, `changed` is set when the changed-word test fires on non-empty
`meta`, and the success message (naming `self.command`) is recorded. -/
def classify (m : KubeManager) (env : Env) (res : Results) (out : String) : Results :=
  if truthyS m.filter = true then
    { res with meta := env.findall (m.filter.getD "") out }
  else
    let meta := pySplitlines out
    { res with
      meta := meta
    , changed := if meta ≠ [] ∧ changedTest out = true then true else res.changed
    , msg := "successfully ran kubectl (" ++ m.command ++ ") command" }

/-- `KubeManager._execute` (kube.py lines 171-188): run the command; a
non-zero exit is a hard error unless exists-tolerant or directory mode; an
exists-tolerant non-zero exit with stderr ending in `not found` returns
with the results untouched; everything else is classified.  The second
component is the invocation trace. -/
def KubeManager._execute (m : KubeManager) (env : Env) (res : Results)
    (cmd : List String) (ex : Bool) :
    Except KubeError Results × List (List String) :=
  let args := m.base_cmd ++ cmd
  let rc := (env.run args).1
  let out := (env.run args).2.1
  let err := (env.run args).2.2
  if rc ≠ 0 ∧ ¬(ex = true ∨ m.isdir = true) then
    (.error (.executionError args rc out err), [args])
  else if rc ≠ 0 ∧ ex = true ∧ lastTwoJoin err = "not found" then
    (.ok res, [args])
  else
    (.ok (classify m env res out), [args])

/-- `KubeManager._exists` (kube.py lines 190-196): run a `get` probe in
exists-tolerant mode; presence is a non-empty `meta`. -/
def KubeManager._exists (m : KubeManager) (env : Env) (res : Results) :
    Except KubeError (Bool × Results) × List (List String) :=
  match m._flags ["get"] true with
  | .error e => (.error e, [])
  | .ok cmd =>
    match m._execute env res cmd true with
    | (.error e, tr) => (.error e, tr)
    | (.ok res1, tr) => (.ok (!res1.meta.isEmpty, res1), tr)

/-- `KubeManager.create` (kube.py lines 238-245): reject `command=delete`;
when `check` holds, probe existence first (the probe always runs before the
safe-command test, per the left-to-right short-circuit evaluation of the
Python conjunction on line 241) and
return early only when the resource exists and the verb is unsafe;
otherwise assemble and run the configured verb. -/
def KubeManager.create (m : KubeManager) (env : Env) (res : Results) (check : Bool) :
    Except KubeError Results × List (List String) :=
  if m.command = "delete" then
    (.error (.configError "use state=absent instead of command=delete"), [])
  else if check = true then
    match m._exists env res with
    | (.error e, tr) => (.error e, tr)
    | (.ok (ex, res1), tr) =>
      if ex = true ∧ ¬ m.command ∈ safe_commands then
        (.ok res1, tr)
      else
        match m._flags [m.command] false with
        | .error e => (.error e, tr)
        | .ok cmd =>
          let r := m._execute env res1 cmd false
          (r.fst, tr ++ r.snd)
  else
    match m._flags [m.command] false with
    | .error e => (.error e, [])
    | .ok cmd => m._execute env res cmd false

/-- `KubeManager.delete` (kube.py lines 247-253): unless forced, probe
first and no-op when absent; otherwise set the verb to `delete`, assemble
and run. -/
def KubeManager.delete (m : KubeManager) (env : Env) (res : Results) :
    Except KubeError Results × List (List String) :=
  if m.force = false then
    match m._exists env res with
    | (.error e, tr) => (.error e, tr)
    | (.ok (ex, res1), tr) =>
      if ex = false then
        (.ok res1, tr)
      else
        let m1 := { m with command := "delete" }
        match m1._flags ["delete"] false with
        | .error e => (.error e, tr)
        | .ok cmd =>
          let r := m1._execute env res1 cmd false
          (r.fst, tr ++ r.snd)
  else
    let m1 := { m with command := "delete" }
    match m1._flags ["delete"] false with
    | .error e => (.error e, [])
    | .ok cmd => m1._execute env res cmd false

/-- `main` (kube.py lines 255-293; the name `main` is reserved in Lean):
build the manager and dispatch on `state`.  For state latest the
source executes `self.overwrite = True` (line 289) inside the module-level
function `main`, where no `self` is bound, so Python raises `NameError`
before `kubeman.create(check=False)` is reached. -/
def kubeMain (env : Env) (p : KubeParams) :
    Except KubeError Results × List (List String) :=
  let m := KubeManager.init env p
  if p.state = "present" then
    m.create env initResults true
  else if p.state = "absent" then
    m.delete env initResults
  else if p.state = "latest" then
    (.error (.nameError "self"), [])
  else
    (.error (.configError ("Unrecognized state " ++ p.state ++ ".")), [])

/-! ## Concrete fixtures shared by witnesses and counterexamples -/

/-- A manager with every optional parameter at its default. -/
def mgrBase : KubeManager :=
  { kubectl := "kubectl", command := "apply", resource := [], name := none
  , keyvars := [], filter := none, filename := [], nspace := none, label := none
  , server := none, kubeconfig := none, ignore := false, overwrite := false
  , force := false, all := false, log_level := 0, isdir := false }

/-- An environment whose collaborators all answer trivially. -/
def envBase : Env :=
  { binPath := "kubectl", isdirP := fun _ => false
  , run := fun _ => (0, "", ""), findall := fun _ _ => [] }

/-! ## Helper lemmas -/

/-- `_execute` issues exactly one external invocation, in every branch. -/
theorem execute_snd (m : KubeManager) (env : Env) (res : Results)
    (cmd : List String) (ex : Bool) :
    (m._execute env res cmd ex).snd = [m.base_cmd ++ cmd] := by
  simp only [KubeManager._execute]
  split_ifs <;> rfl

/-! ## Claims -/

/-- C1: the spec says state latest forces the overwrite flag on, skips the
existence probe and always runs the configured verb; the code instead
raises a NameError on the unbound `self` at line 289 of `main`, before
`create` is reached, so no invocation happens at all.  This theorem
evaluates the code at the failing input: every latest run fails with the
NameError and an empty invocation trace. -/
theorem c1_latest_nameerror (env : Env) (p : KubeParams) (h : p.state = "latest") :
    kubeMain env p = (.error (.nameError "self"), []) := by
  unfold kubeMain
  rw [h]
  rfl

/-- A latest-state parameter set, as in the module examples. -/
def pLatest : KubeParams :=
  { kubectl := some "kubectl", command := "apply", resource := [], name := none
  , keyvars := [], filter := none, filename := ["/tmp/nginx.yml"], nspace := none
  , label := none, server := none, kubeconfig := none, ignore := false
  , overwrite := false, force := false, all := false, log_level := 0
  , state := "latest" }

/-- Witness for C1 at a concrete latest run. -/
theorem c1_latest_nameerror_witness :
    kubeMain envBase pLatest = (.error (.nameError "self"), []) :=
  c1_latest_nameerror envBase pLatest rfl

/-- C2: when a filter pattern is set and the execution reaches
classification (exit zero, or a tolerated non-zero that is not the
not-found early return), meta becomes exactly the ordered find-all matches
of the pattern against stdout — stated for an arbitrary behaviour of the
regex library, so meta is never the raw line split — and changed and msg
are left untouched. -/
theorem c2_filter_meta_findall (env : Env) (m : KubeManager) (res : Results)
    (cmd : List String) (ex : Bool) (pat : String) (rc : Int) (out err : String)
    (hpat : m.filter = some pat) (hne : pat ≠ "")
    (hrun : env.run (m.base_cmd ++ cmd) = (rc, out, err))
    (hhard : ¬(rc ≠ 0 ∧ ¬(ex = true ∨ m.isdir = true)))
    (hnf : ¬(rc ≠ 0 ∧ ex = true ∧ lastTwoJoin err = "not found")) :
    (m._execute env res cmd ex).fst = .ok { res with meta := env.findall pat out } := by
  simp only [KubeManager._execute, hrun]
  rw [if_neg hhard, if_neg hnf]
  simp [classify, hpat, truthyS, hne]

/-- A manager with a filter pattern. -/
def mC2 : KubeManager :=
  { mgrBase with command := "get", resource := ["pods"], filter := some "created" }

/-- An environment returning one line of stdout and a regex library that
answers one match for this pattern and subject. -/
def envC2 : Env :=
  { envBase with
    run := fun _ => (0, "pod/a created", "")
  , findall := fun p s => if p = "created" && s = "pod/a created" then ["created"] else [] }

/-- Witness for C2 at a concrete filtered run. -/
theorem c2_filter_meta_findall_witness :
    (mC2._execute envC2 initResults ["get", "pods", "--no-headers"] false).fst
      = .ok { initResults with meta := envC2.findall "created" "pod/a created" } :=
  c2_filter_meta_findall envC2 mC2 initResults ["get", "pods", "--no-headers"] false
    "created" 0 "pod/a created" "" rfl (by decide) rfl (by decide) (by decide)

/-- C6: with neither resource nor filename set, `_flags` fails with the
filename-or-resource ConfigError, for every initial verb vector and both
for probe and non-probe assembly. -/
theorem c6_flags_config_error (m : KubeManager) (cmd0 : List String) (ex : Bool)
    (hf : m.filename = []) (hr : m.resource = []) :
    m._flags cmd0 ex = .error (.configError "filename or resource required") := by
  unfold KubeManager._flags
  rw [if_pos ⟨hf, hr⟩]

/-- Witness for C6 on the default manager. -/
theorem c6_flags_config_error_witness :
    mgrBase._flags ["apply"] false
      = .error (.configError "filename or resource required") :=
  c6_flags_config_error mgrBase ["apply"] false rfl rfl

/-- C7: with resource types set, the probe vector carries exactly the first
resource type while the non-probe vector carries all of them in order, each
followed by the same flag tokens (and --no-headers exactly for a get
verb). -/
theorem c7_probe_first_resource (m : KubeManager) (v r : String) (rs : List String)
    (h : m.resource = r :: rs) :
    m._flags [v] true =
      .ok ([v] ++ [r] ++ flagTokens m true
        ++ (if v = "get" then ["--no-headers"] else []))
    ∧ m._flags [v] false =
      .ok ([v] ++ (r :: rs) ++ flagTokens m false
        ++ (if v = "get" then ["--no-headers"] else [])) := by
  unfold KubeManager._flags resourceTokens
  rw [h]
  constructor <;> simp [List.append_assoc]

/-- A manager with two resource types. -/
def mC7 : KubeManager := { mgrBase with resource := ["pods", "svc"] }

/-- Witness for C7: probing emits only pods, non-probe emits pods and svc. -/
theorem c7_probe_first_resource_witness :
    mC7._flags ["get"] true =
      .ok (["get"] ++ ["pods"] ++ flagTokens mC7 true
        ++ (if "get" = "get" then ["--no-headers"] else []))
    ∧ mC7._flags ["get"] false =
      .ok (["get"] ++ (["pods", "svc"]) ++ flagTokens mC7 false
        ++ (if "get" = "get" then ["--no-headers"] else [])) :=
  c7_probe_first_resource mC7 "get" "pods" ["svc"] rfl

/-- C8: for a zero-exit execution with no filter pattern and the initial
result record, meta is the line split of stdout, changed is true exactly
when meta is non-empty and the changed-word test of line 184 fires (a
stdout token occurring as a substring of created, deleted, labeled or
modified), and the success message names the configured verb. -/
theorem c8_nofilter_classification (env : Env) (m : KubeManager) (cmd : List String)
    (ex : Bool) (rc : Int) (out err : String)
    (hfil : truthyS m.filter = false)
    (hrun : env.run (m.base_cmd ++ cmd) = (rc, out, err))
    (hrc : rc = 0) :
    ∃ r, (m._execute env initResults cmd ex).fst = .ok r ∧
      r.meta = pySplitlines out ∧
      (r.changed = true ↔ (pySplitlines out ≠ [] ∧ changedTest out = true)) ∧
      r.msg = "successfully ran kubectl (" ++ m.command ++ ") command" := by
  subst hrc
  have h1 : (m._execute env initResults cmd ex).fst
      = .ok (classify m env initResults out) := by
    simp only [KubeManager._execute, hrun]
    rw [if_neg (fun hcon => hcon.1 rfl), if_neg (fun hcon => hcon.1 rfl)]
  refine ⟨classify m env initResults out, h1, ?_, ?_, ?_⟩
  · simp [classify, hfil]
  · by_cases hc : pySplitlines out ≠ [] ∧ changedTest out = true <;>
      simp [classify, hfil, hc, initResults]
  · simp [classify, hfil]

/-- A manager running apply on an rc resource. -/
def mC8 : KubeManager := { mgrBase with resource := ["rc"], name := some "nginx" }

/-- The scenario environment: exit 0 with the created line on stdout. -/
def envC8 : Env :=
  { envBase with run := fun _ => (0, "replicationcontroller \"nginx\" created", "") }

/-- Witness for C8 on the spec scenario: the single stdout line becomes the
single meta entry and changed is true because of the created token. -/
theorem c8_nofilter_classification_witness :
    (∃ r, (mC8._execute envC8 initResults ["apply", "rc", "nginx"] false).fst = .ok r ∧
      r.meta = pySplitlines "replicationcontroller \"nginx\" created" ∧
      (r.changed = true ↔ (pySplitlines "replicationcontroller \"nginx\" created" ≠ [] ∧
        changedTest "replicationcontroller \"nginx\" created" = true)) ∧
      r.msg = "successfully ran kubectl (apply) command")
    ∧ pySplitlines "replicationcontroller \"nginx\" created"
        = ["replicationcontroller \"nginx\" created"]
    ∧ changedTest "replicationcontroller \"nginx\" created" = true :=
  ⟨c8_nofilter_classification envC8 mC8 ["apply", "rc", "nginx"] false 0
      "replicationcontroller \"nginx\" created" "" rfl rfl rfl,
   by decide, by decide⟩

/-- C9: an exists-tolerant execution with non-zero exit whose stderr ends
in the two tokens not found returns without error and leaves the initial
result record untouched (changed false, meta empty, message empty), while
still having issued the one probe invocation. -/
theorem c9_notfound_unchanged (env : Env) (m : KubeManager) (cmd : List String)
    (rc : Int) (out err : String)
    (hrun : env.run (m.base_cmd ++ cmd) = (rc, out, err))
    (hrc : rc ≠ 0) (hnf : lastTwoJoin err = "not found") :
    m._execute env initResults cmd true = (.ok initResults, [m.base_cmd ++ cmd]) := by
  simp only [KubeManager._execute, hrun]
  rw [if_neg (by simp), if_pos (by exact ⟨hrc, by trivial, hnf⟩)]

/-- The scenario environment: exit 1 with the NotFound stderr. -/
def envC9 : Env :=
  { envBase with
    run := fun _ => (1, "", "Error from server (NotFound): pods \"nginx\" not found") }

/-- The probing manager for the C9 scenario. -/
def mC9 : KubeManager :=
  { mgrBase with command := "get", resource := ["pods"], name := some "nginx" }

/-- Witness for C9 on the spec scenario. -/
theorem c9_notfound_unchanged_witness :
    mC9._execute envC9 initResults ["get", "pods", "nginx", "--no-headers"] true
      = (.ok initResults, [["kubectl", "get", "pods", "nginx", "--no-headers"]]) :=
  c9_notfound_unchanged envC9 mC9 ["get", "pods", "nginx", "--no-headers"] 1 ""
    "Error from server (NotFound): pods \"nginx\" not found" rfl (by decide) (by decide)

/-- When directory mode is on, `_execute` never takes the hard-error
branch, whatever the exit code and whether or not it is a probe. -/
theorem execute_ok_of_isdir (m : KubeManager) (env : Env) (res : Results)
    (cmd : List String) (ex : Bool) (hd : m.isdir = true) :
    ∃ r, (m._execute env res cmd ex).fst = Except.ok r := by
  simp only [KubeManager._execute]
  split_ifs with h1 h2
  · exact absurd (Or.inr hd) h1.2
  · exact ⟨res, rfl⟩
  · exact ⟨_, rfl⟩

/-- C10: directory mode is on exactly when the file-path list is non-empty
and its first (stripped) element is a directory; paths after the first are
never examined; and directory mode suppresses the hard-error path of
`_execute` for every invocation of the run, probe or not. -/
theorem c10_dirmode (env : Env) (p : KubeParams) :
    ((KubeManager.init env p).isdir = true ↔
      (p.filename ≠ [] ∧ env.isdirP (pyStrip (p.filename.headD "")) = true))
    ∧ (∀ f rest1 rest2,
        (KubeManager.init env { p with filename := f :: rest1 }).isdir
          = (KubeManager.init env { p with filename := f :: rest2 }).isdir)
    ∧ (∀ res cmd ex, (KubeManager.init env p).isdir = true →
        ∃ r, ((KubeManager.init env p)._execute env res cmd ex).fst = Except.ok r) := by
  refine ⟨?_, ?_, ?_⟩
  · cases hp : p.filename with
    | nil => simp [KubeManager.init, hp]
    | cons f fs => simp [KubeManager.init, hp]
  · intro f rest1 rest2
    simp [KubeManager.init]
  · intro res cmd ex hd
    exact execute_ok_of_isdir _ env res cmd ex hd

/-- A filesystem on which /tmp/manifests is a directory, and runs that
exit non-zero. -/
def envC10 : Env :=
  { envBase with
    isdirP := fun s => s == "/tmp/manifests"
  , run := fun _ => (1, "", "unable to parse file") }

/-- Parameters pointing at a directory first and a stray file second. -/
def pC10 : KubeParams :=
  { pLatest with state := "present", filename := ["/tmp/manifests", "extra.txt"] }

/-- Witness for C10: directory mode holds here and a non-zero non-probe
invocation still returns ok. -/
theorem c10_dirmode_witness :
    ∃ r, ((KubeManager.init envC10 pC10)._execute envC10 initResults
        ["apply", "--filename=/tmp/manifests,extra.txt"] false).fst = Except.ok r :=
  (c10_dirmode envC10 pC10).2.2 initResults
    ["apply", "--filename=/tmp/manifests,extra.txt"] false (by decide)

/-- An exists-tolerant probing manager, not in directory mode. -/
def mC3 : KubeManager :=
  { mgrBase with command := "get", resource := ["pods"], name := some "nginx" }

/-- Exit 1 with a stderr that does not end in the two tokens not found. -/
def envC3 : Env :=
  { envBase with run := fun _ => (1, "", "connection refused") }

/-- C3 counterexample: an exists-tolerant probe execution (not in
directory mode) with exit 1 and stderr `connection refused` is claimed to
be a hard ExecutionError; the code instead falls through to normal
classification and returns ok with the success message. -/
theorem c3_counterexample :
    (mC3._execute envC3 initResults ["get", "pods", "nginx", "--no-headers"] true).fst
      = Except.ok { changed := false, meta := [],
                    msg := "successfully ran kubectl (get) command" } := by
  rfl

/-- C3 amended: during an exists-tolerant execution a non-zero exit never
raises: the not-found case returns the record untouched, and any other
non-zero exit falls through to the normal output classification. -/
theorem c3_amended (env : Env) (m : KubeManager) (res : Results) (cmd : List String)
    (rc : Int) (out err : String)
    (hrun : env.run (m.base_cmd ++ cmd) = (rc, out, err))
    (hrc : rc ≠ 0) (hnf : lastTwoJoin err ≠ "not found") :
    (m._execute env res cmd true).fst = Except.ok (classify m env res out) := by
  simp only [KubeManager._execute, hrun]
  rw [if_neg (by simp), if_neg (by simp [hnf])]

/-- Witness for the amended C3 on the concrete counterexample input. -/
theorem c3_amended_witness :
    (mC3._execute envC3 initResults ["get", "pods", "nginx", "--no-headers"] true).fst
      = Except.ok (classify mC3 envC3 initResults "") :=
  c3_amended envC3 mC3 initResults ["get", "pods", "nginx", "--no-headers"] 1 ""
    "connection refused" rfl (by decide) (by decide)

/-- A present-flow manager whose resource is literally named created. -/
def mC4 : KubeManager := { mgrBase with resource := ["rc"], name := some "created" }

/-- The probe answers with a listing whose first token is created. -/
def envC4 : Env := { envBase with run := fun _ => (0, "created 1 1 2d", "") }

/-- C4 counterexample: with an existing resource named created, the
present flow issues only the probe and never runs the apply verb, yet the
returned record has changed = true, because the probe stdout token created
passes the changed-word test — contradicting the claimed changed = false. -/
theorem c4_counterexample :
    mC4.create envC4 initResults true
      = (Except.ok { changed := true, meta := ["created 1 1 2d"],
                     msg := "successfully ran kubectl (apply) command" },
         [["kubectl", "get", "rc", "created", "--no-headers"]]) := by
  rfl

/-- C4 amended: for present with an unsafe verb and a probe that reports
the resource as existing, the operation is a no-op — only the probe
invocation is issued and the verb is not run — and the returned record has
changed = false provided the probe stdout does not itself trigger the
changed-word test (and no filter is set, so the probe output is
line-split). -/
theorem c4_amended (env : Env) (m : KubeManager) (pcmd : List String)
    (rc : Int) (out err : String)
    (hdel : m.command ≠ "delete") (hsafe : ¬ m.command ∈ safe_commands)
    (hp : m._flags ["get"] true = .ok pcmd)
    (hrun : env.run (m.base_cmd ++ pcmd) = (rc, out, err))
    (hrc : rc = 0) (hfil : truthyS m.filter = false)
    (hout : pySplitlines out ≠ []) (hnc : changedTest out = false) :
    m.create env initResults true
      = (Except.ok { changed := false, meta := pySplitlines out,
                     msg := "successfully ran kubectl (" ++ m.command ++ ") command" },
         [m.base_cmd ++ pcmd]) := by
  subst hrc
  have hcl : classify m env initResults out
      = { changed := false, meta := pySplitlines out,
          msg := "successfully ran kubectl (" ++ m.command ++ ") command" } := by
    simp [classify, hfil, hnc, initResults]
  have hexec : m._execute env initResults pcmd true
      = (Except.ok { changed := false, meta := pySplitlines out,
                     msg := "successfully ran kubectl (" ++ m.command ++ ") command" },
         [m.base_cmd ++ pcmd]) := by
    simp only [KubeManager._execute, hrun]
    rw [if_neg (by simp), if_neg (by simp), hcl]
  have hex : m._exists env initResults
      = (Except.ok (true, { changed := false, meta := pySplitlines out,
                            msg := "successfully ran kubectl (" ++ m.command ++ ") command" }),
         [m.base_cmd ++ pcmd]) := by
    simp only [KubeManager._exists, hp, hexec]
    simp [List.isEmpty_iff, hout]
  simp [KubeManager.create, hdel, hex, hsafe]

/-- A present-flow manager for the benign witness. -/
def mC4w : KubeManager := { mgrBase with resource := ["rc"], name := some "nginx" }

/-- A probe listing with no changed-word token. -/
def envC4w : Env := { envBase with run := fun _ => (0, "nginx 1 1 2d", "") }

/-- Witness for the amended C4. -/
theorem c4_amended_witness :
    mC4w.create envC4w initResults true
      = (Except.ok { changed := false, meta := pySplitlines "nginx 1 1 2d",
                     msg := "successfully ran kubectl (apply) command" },
         [["kubectl", "get", "rc", "nginx", "--no-headers"]]) :=
  c4_amended envC4w mC4w ["get", "rc", "nginx", "--no-headers"] 0 "nginx 1 1 2d" ""
    (by decide) (by decide) rfl rfl rfl rfl (by decide) (by decide)

/-- A safe-verb manager: version is in the safe set. -/
def mC5 : KubeManager := { mgrBase with command := "version", resource := ["pods"] }

/-- A probe that reports the resource as existing. -/
def envC5 : Env := { envBase with run := fun _ => (0, "nginx 1 1 2d", "") }

/-- C5 counterexample: for present with the safe verb version, the claim
says no existence probe is issued; the invocation trace shows the get
probe ran before the verb. -/
theorem c5_counterexample :
    (mC5.create envC5 initResults true).snd
      = [["kubectl", "get", "pods", "--no-headers"],
         ["kubectl", "version", "pods"]] := by
  rfl

/-- C5 amended: for present with a verb in the safe set, the existence
probe is still issued first (its outcome never short-circuits a safe
verb), and then the configured verb is assembled and executed on the
probe-classified record. -/
theorem c5_amended (env : Env) (m : KubeManager) (pcmd vcmd : List String) (pres : Results)
    (hdel : m.command ≠ "delete") (hsafe : m.command ∈ safe_commands)
    (hp : m._flags ["get"] true = .ok pcmd)
    (hpe : (m._execute env initResults pcmd true).fst = .ok pres)
    (hv : m._flags [m.command] false = .ok vcmd) :
    m.create env initResults true
      = ((m._execute env pres vcmd false).fst,
         [m.base_cmd ++ pcmd, m.base_cmd ++ vcmd]) := by
  have hpair : m._execute env initResults pcmd true
      = (Except.ok pres, [m.base_cmd ++ pcmd]) := by
    have h2 := execute_snd m env initResults pcmd true
    cases hE : m._execute env initResults pcmd true with
    | mk a b =>
      rw [hE] at hpe h2
      simp only at hpe h2
      rw [hpe, h2]
  have hex : m._exists env initResults
      = (Except.ok (!pres.meta.isEmpty, pres), [m.base_cmd ++ pcmd]) := by
    simp only [KubeManager._exists, hp, hpair]
  have hnc : ¬((!pres.meta.isEmpty) = true ∧ ¬ m.command ∈ safe_commands) :=
    fun hcon => hcon.2 hsafe
  simp [KubeManager.create, hdel, hex, hnc, hv, execute_snd]
  exact fun _ => hsafe

/-- The probe-classified record in the C5 witness run. -/
def presC5 : Results :=
  { changed := false, meta := ["nginx 1 1 2d"]
  , msg := "successfully ran kubectl (version) command" }

/-- Witness for the amended C5. -/
theorem c5_amended_witness :
    mC5.create envC5 initResults true
      = ((mC5._execute envC5 presC5 ["version", "pods"] false).fst,
         [["kubectl", "get", "pods", "--no-headers"],
          ["kubectl", "version", "pods"]]) :=
  c5_amended envC5 mC5 ["get", "pods", "--no-headers"] ["version", "pods"] presC5
    (by decide) (by decide) rfl rfl rfl
